import Mathlib

/-!
Verification development for the ActivePlan component
(src/web/client/src/library/components/ide/ActivePlan.tsx): the shared
plan-store transitions performed by its cancel handler, the settlement of
the cancellation request chain, and the pure view computations of its
render body.
-/

namespace ActivePlanSpec

/-- Modelled from the spec: the plan lifecycle enumeration EnumPlanState
from the shared plan store module, which the component imports but which
is not among the supplied sources. The five named members the spec lists
plus a constructor standing for any unknown value. -/
inductive PlanState where
  | Idle
  | Applying
  | Cancelling
  | Cancelled
  | Finished
  | Failed
  | unknown (value : String)
  deriving DecidableEq

/-- Modelled from the spec: the EnumPlanAction members the component uses,
None and Cancelling. -/
inductive PlanAction where
  | None
  | Cancelling
  deriving DecidableEq

/-- Modelled from the spec: EnumPlanApplyType, Virtual or Backfill. -/
inductive PlanApplyType where
  | Virtual
  | Backfill
  deriving DecidableEq

/-- Tasks are owned externally and never inspected by this component; the
task collection is passed by reference to TasksOverview. -/
abbrev Task := String

/-- Modelled from the spec: the PlanProgress fields the component reads:
the update kind, the timestamp of last update, and the task collection. -/
structure PlanProgress where
  type : PlanApplyType
  updated_at : String
  tasks : List Task
  deriving DecidableEq

/-- The shared plan store surface the component reads and writes. -/
structure Store where
  state : PlanState
  action : PlanAction
  deriving DecidableEq

/-- The setState operation of the store (setPlanState in the component). -/
def setState (s : Store) (ps : PlanState) : Store := { s with state := ps }

/-- The setAction operation of the store (setPlanAction in the component). -/
def setAction (s : Store) (a : PlanAction) : Store := { s with action := a }

/-- The world observable around the cancel handler: the shared store, the
diagnostic console log, and how many cancellation requests were sent. -/
structure World where
  store : Store
  consoleErrors : List String
  requests : Nat
  deriving DecidableEq

/-- Settlement of the cancellation request: resolution or rejection. -/
inductive Settled where
  | resolved
  | rejected (err : String)
  deriving DecidableEq

/-- Promise semantics of .catch(console.error): a rejection reason is
passed to console.error, which logs it and returns undefined, so the
chained promise resolves; a resolution passes through untouched. -/
def catchConsoleError : Settled → World → Settled × World
  | Settled.resolved, w => (Settled.resolved, w)
  | Settled.rejected e, w =>
      (Settled.resolved, { w with consoleErrors := w.consoleErrors ++ [e] })

/-- The .finally callback of cancel(): setPlanAction(None) then
setPlanState(Cancelled), in source order. -/
def finallyHandler (w : World) : World :=
  let w1 := { w with store := setAction w.store PlanAction.None }
  { w1 with store := setState w1.store PlanState.Cancelled }

/-- The synchronous prefix of cancel(): setPlanState(Cancelling) then
setPlanAction(Cancelling), in source order. -/
def cancelSync (w : World) : World :=
  let w1 := { w with store := setState w.store PlanState.Cancelling }
  { w1 with store := setAction w1.store PlanAction.Cancelling }

/-- The call apiCancelPlanApply(client): dispatches one request. -/
def dispatchCancelRequest (w : World) : World :=
  { w with requests := w.requests + 1 }

/-- cancel(): the two synchronous store updates, the single request
dispatch, then the continuation .catch(console.error).finally(...), here
parameterised by how the request settles. The returned Settled value is
the settlement of the whole chain as any further continuation would
observe it; .finally passes the settlement of the catch stage through
since its callback only runs the two setters and cannot reject. -/
def cancel (outcome : Settled) (w : World) : Settled × World :=
  let w1 := dispatchCancelRequest (cancelSync w)
  let pw := catchConsoleError outcome w1
  (pw.1, finallyHandler pw.2)

/-- The successive store states produced by the four setter calls of
cancel(), in program order: after setPlanState(Cancelling), after
setPlanAction(Cancelling), after setPlanAction(None), and after
setPlanState(Cancelled). -/
def cancelStoreTrace (w : World) : List Store :=
  let s1 := setState w.store PlanState.Cancelling
  let s2 := setAction s1 PlanAction.Cancelling
  let s3 := setAction s2 PlanAction.None
  let s4 := setState s3 PlanState.Cancelled
  [s1, s2, s3, s4]

/-- getTriggerBgColor from the component, with its branch structure. -/
def getTriggerBgColor (planState : PlanState) : String :=
  if planState = PlanState.Finished then "bg-success-500 text-light"
  else if planState = PlanState.Failed then "bg-danger-500 text-light"
  else if planState = PlanState.Applying then "bg-secondary-500 text-light"
  else "bg-neutral-100 text-neutral-500"

/-- The trigger count expression of the component: plan == null ? 0 : 1. -/
def triggerCountLabel (plan : Option PlanProgress) : Nat :=
  match plan with
  | Option.none => 0
  | Option.some _ => 1

/-- The data the render body computes for the popover subtree. -/
structure Rendered where
  triggerLabel : Nat
  triggerBgColor : String
  tasks : List Task
  updateType : String
  showBatches : Bool
  showVirtualUpdate : Bool
  showProgress : Bool
  showCancelButton : Bool
  deriving DecidableEq

/-- The render body for a present plan: the trigger label and color, the
tasks handed to TasksOverview, the summary update type label, the batch
versus virtual-update flags of the details view, and whether the Cancel
button is rendered (exactly when the store state is Applying). -/
def renderSome (p : PlanProgress) (planState : PlanState) : Rendered :=
  { triggerLabel := triggerCountLabel (Option.some p)
    triggerBgColor := getTriggerBgColor planState
    tasks := p.tasks
    updateType :=
      if p.type = PlanApplyType.Virtual then "Virtual" else "Backfill"
    showBatches := decide (p.type ≠ PlanApplyType.Virtual)
    showVirtualUpdate := decide (p.type = PlanApplyType.Virtual)
    showProgress := true
    showCancelButton := decide (planState = PlanState.Applying) }

/-- ActivePlan: constructing the popover JSX subtree evaluates plan.tasks
unconditionally; with a null-like plan this property access raises a
TypeError under JS semantics, so the render throws and produces no
output. With a present plan it produces the rendered data. -/
def ActivePlan (plan : Option PlanProgress) (planState : PlanState) :
    Except String Rendered :=
  match plan with
  | Option.none =>
      Except.error "TypeError: Cannot read properties of null (reading tasks)"
  | Option.some p => Except.ok (renderSome p planState)

/-- C1: For every settlement outcome of the cancellation request, after
cancel() settles the shared store ends with action None and state
Cancelled, and the final store in the rejection case is identical to the
final store in the resolution case. -/
theorem cancel_final_store (outcome : Settled) (w : World) :
    (cancel outcome w).2.store.action = PlanAction.None ∧
    (cancel outcome w).2.store.state = PlanState.Cancelled ∧
    ∀ e : String,
      (cancel (Settled.rejected e) w).2.store =
        (cancel Settled.resolved w).2.store := by
  refine ⟨?_, ?_, fun e => rfl⟩ <;> cases outcome <;> rfl

/-- C2: With an absent plan the component does not render successfully:
for every store state the render raises a TypeError while reading
plan.tasks and produces no rendered output, so TasksOverview is never
reached; only the trigger count expression itself evaluates to 0. -/
theorem activePlan_absent_plan_throws :
    (∀ st : PlanState,
      ActivePlan Option.none st =
        Except.error
          "TypeError: Cannot read properties of null (reading tasks)") ∧
    triggerCountLabel Option.none = 0 :=
  ⟨fun st => rfl, rfl⟩

/-- C3: getTriggerBgColor maps Finished, Failed and Applying to three
pairwise distinct tokens, and every other state, unknown values included,
to the single neutral token. -/
theorem getTriggerBgColor_total_mapping :
    getTriggerBgColor PlanState.Finished = "bg-success-500 text-light" ∧
    getTriggerBgColor PlanState.Failed = "bg-danger-500 text-light" ∧
    getTriggerBgColor PlanState.Applying = "bg-secondary-500 text-light" ∧
    getTriggerBgColor PlanState.Finished ≠
      getTriggerBgColor PlanState.Failed ∧
    getTriggerBgColor PlanState.Finished ≠
      getTriggerBgColor PlanState.Applying ∧
    getTriggerBgColor PlanState.Failed ≠
      getTriggerBgColor PlanState.Applying ∧
    ∀ s : PlanState, s ≠ PlanState.Finished → s ≠ PlanState.Failed →
      s ≠ PlanState.Applying →
      getTriggerBgColor s = "bg-neutral-100 text-neutral-500" := by
  refine ⟨rfl, rfl, rfl, by decide, by decide, by decide, ?_⟩
  intro s h1 h2 h3
  cases s
  case Finished => exact absurd rfl h1
  case Failed => exact absurd rfl h2
  case Applying => exact absurd rfl h3
  all_goals rfl

/-- Witness for C3, at the Idle state. -/
theorem getTriggerBgColor_total_mapping_witness :
    getTriggerBgColor PlanState.Idle = "bg-neutral-100 text-neutral-500" :=
  getTriggerBgColor_total_mapping.2.2.2.2.2.2 PlanState.Idle
    (by decide) (by decide) (by decide)

/-- C4: Given state Applying, the synchronous prefix of cancel() leaves
the store with state Cancelling and action Cancelling, before the request
settles and without waiting for confirmation. -/
theorem cancel_sync_optimistic (w : World)
    (h : w.store.state = PlanState.Applying) :
    (cancelSync w).store.state = PlanState.Cancelling ∧
    (cancelSync w).store.action = PlanAction.Cancelling :=
  ⟨rfl, rfl⟩

/-- Witness for C4, at a concrete world whose store state is Applying. -/
theorem cancel_sync_optimistic_witness :
    (cancelSync
        (World.mk (Store.mk PlanState.Applying PlanAction.None) [] 0)
      ).store.state = PlanState.Cancelling ∧
    (cancelSync
        (World.mk (Store.mk PlanState.Applying PlanAction.None) [] 0)
      ).store.action = PlanAction.Cancelling :=
  cancel_sync_optimistic
    (World.mk (Store.mk PlanState.Applying PlanAction.None) [] 0) rfl

/-- C5: When the cancellation request rejects, the error is appended to
the diagnostic console log, the chain settles as resolved so no exception
escapes the handler or its continuation, and exactly one request was
dispatched with no retry. -/
theorem cancel_rejection_logged (w : World) (e : String) :
    (cancel (Settled.rejected e) w).1 = Settled.resolved ∧
    (cancel (Settled.rejected e) w).2.consoleErrors =
      w.consoleErrors ++ [e] ∧
    (cancel (Settled.rejected e) w).2.requests = w.requests + 1 :=
  ⟨rfl, rfl, rfl⟩

/-- C6: For a present plan, the Cancel button is rendered in the panel
exactly when the store state is Applying. -/
theorem cancel_button_iff_applying (p : PlanProgress) (st : PlanState) :
    ((renderSome p st).showCancelButton = true ↔
      st = PlanState.Applying) ∧
    ActivePlan (Option.some p) st = Except.ok (renderSome p st) := by
  refine ⟨?_, rfl⟩
  simp [renderSome]

/-- C7: Every store state produced by the setter calls of cancel() has
state Cancelling whenever its action is Cancelling; in particular at no
produced point before the request dispatch does action Cancelling hold
while the state has not been set to Cancelling. -/
theorem cancel_no_desync (w : World) :
    ∀ s ∈ cancelStoreTrace w,
      s.action = PlanAction.Cancelling → s.state = PlanState.Cancelling := by
  intro s hs hact
  simp only [cancelStoreTrace, List.mem_cons, List.not_mem_nil,
    or_false] at hs
  rcases hs with h | h | h | h <;> subst h
  · rfl
  · rfl
  · exact PlanAction.noConfusion hact
  · exact PlanAction.noConfusion hact

/-- Witness for C7: the produced store right after the two synchronous
setters of a run started from an Applying store. -/
theorem cancel_no_desync_witness :
    (Store.mk PlanState.Cancelling PlanAction.Cancelling).state =
      PlanState.Cancelling :=
  cancel_no_desync
    (World.mk (Store.mk PlanState.Applying PlanAction.None) [] 0)
    (Store.mk PlanState.Cancelling PlanAction.Cancelling)
    (by decide) rfl

/-- C8: For a present plan, the details view shows batch info exactly for
a Backfill plan and virtual-update info exactly for a Virtual plan, so
exactly one of the two is shown, and the summary update type label is
Virtual precisely for a Virtual plan and Backfill precisely for a
Backfill plan. -/
theorem render_batches_vs_virtual (p : PlanProgress) (st : PlanState) :
    ((renderSome p st).showBatches =
      !(renderSome p st).showVirtualUpdate) ∧
    ((renderSome p st).showVirtualUpdate = true ↔
      p.type = PlanApplyType.Virtual) ∧
    ((renderSome p st).showBatches = true ↔
      p.type = PlanApplyType.Backfill) ∧
    ((renderSome p st).updateType = "Virtual" ↔
      p.type = PlanApplyType.Virtual) ∧
    ((renderSome p st).updateType = "Backfill" ↔
      p.type = PlanApplyType.Backfill) := by
  cases hp : p.type <;> simp [renderSome, hp]

/-- C9: The trigger count expression is a pure presence flag: 0 for an
absent plan and 1 for any present plan regardless of its task list, and
the rendered trigger label of a present plan is 1; however for an absent
plan the render throws a TypeError instead of displaying the 0. -/
theorem trigger_count_presence_flag :
    triggerCountLabel Option.none = 0 ∧
    (∀ p : PlanProgress, triggerCountLabel (Option.some p) = 1) ∧
    (∀ p st, (renderSome p st).triggerLabel = 1) ∧
    ∀ st, ActivePlan Option.none st =
      Except.error
        "TypeError: Cannot read properties of null (reading tasks)" :=
  ⟨rfl, fun p => rfl, fun p st => rfl, fun st => rfl⟩

/-- C10: cancel() checks no precondition: from every initial world,
whatever the store holds, it performs the identical transitions: the
synchronous prefix always leaves the store at Cancelling with action
Cancelling, exactly one request is dispatched, and settlement always
leaves the store at Cancelled with action None. -/
theorem cancel_unconditional (outcome : Settled) (w : World) :
    (cancelSync w).store =
      Store.mk PlanState.Cancelling PlanAction.Cancelling ∧
    (cancel outcome w).2.store =
      Store.mk PlanState.Cancelled PlanAction.None ∧
    (cancel outcome w).2.requests = w.requests + 1 := by
  refine ⟨rfl, ?_, ?_⟩ <;> cases outcome <;> rfl

end ActivePlanSpec
